import Mathlib

/-
Verification of the configuration-composition core of the playwright-ts
template repository.  The TypeScript sources are shallowly embedded:

* lib/config/environment-config.ts : getEnvVariable, getString, getBool and
  the EnvironmentConfig class (field initializers run in order and any throw
  propagates, modelled with Except).
* lib/config/file-config.ts : readObject and the exported
  PlayWrightServerConfig.  The source calls the asynchronous fs.readFile with
  a callback and then synchronously inspects the local variable content; the
  callback only runs after readObject has returned.  The embedding makes the
  event ordering explicit: the synchronous phase sees content unchanged, and
  the callback effects (assigning content, or throwing ConfigError) are
  recorded as happening after the return value is fixed.
* lib/types/devices (part_001 and the customDevices overlay): the Galaxy A52
  descriptor and the JS spread of the built-in playwright devices object with
  the user list, later keys winning.
* playwright-project-config (part_003): desktopBrowsers, mobileBrowsers,
  createDeviceProject, desktopProjects, mobileProjects and projectConfig.
  JS property lookup on a plain object is modelled as an Option-valued map;
  spreading an undefined lookup contributes no fields, which the ProjectUse
  model captures with an Option DeviceDescriptor component.
* playwright.config (part_000): the object literal passed to defineConfig,
  including the property access config.EnvironmentConfig.RunParrel, modelled
  as a string-keyed lookup in the property table of the EnvironmentConfig
  instance (a missing key yields the JS undefined value).

JS-specific conventions used throughout: a string option is truthy exactly
when it is present and non-empty; String.prototype.replace with a string
pattern replaces the first occurrence only; numbers are modelled as Rat
(every literal in the sources is exactly representable).
-/

namespace PlaywrightTs

/-- Decidable equality for Except, used to evaluate loader outcomes on
concrete inputs. -/
instance {ε α : Type} [DecidableEq ε] [DecidableEq α] : DecidableEq (Except ε α) :=
  fun a b =>
    match a, b with
    | Except.error e, Except.error f =>
        if h : e = f then Decidable.isTrue (by rw [h])
        else Decidable.isFalse (by intro hc; cases hc; exact h rfl)
    | Except.error _, Except.ok _ => Decidable.isFalse (by intro hc; cases hc)
    | Except.ok _, Except.error _ => Decidable.isFalse (by intro hc; cases hc)
    | Except.ok a, Except.ok b =>
        if h : a = b then Decidable.isTrue (by rw [h])
        else Decidable.isFalse (by intro hc; cases hc; exact h rfl)

/-- Error class from lib/types/errors/config-error.ts; it stores the
offending variable name (file-config.ts reuses it with the file path). -/
structure ConfigError where
  varName : String
deriving DecidableEq

/-- Model of the JS SyntaxError that JSON.parse may throw. -/
structure JsonSyntaxError where
  message : String
deriving DecidableEq

/-- Truthiness of a possibly-absent JS string: undefined and the empty
string are falsy, every other string is truthy. -/
def jsTruthy (v : Option String) : Bool :=
  match v with
  | none => false
  | some s => s != ""

/-- Model of the JS expression a or-else b for strings: the value of a when
truthy, otherwise the fallback. -/
def jsOrElse (v : Option String) (fallback : String) : String :=
  match v with
  | none => fallback
  | some s => if s == "" then fallback else s

/-- environment-config.ts getEnvVariable: direct lookup of a key in the
process environment, modelled as a partial map. -/
def getEnvVariable (env : String → Option String) (configKey : String) : Option String :=
  env configKey

/-- environment-config.ts getString.  The source throws ConfigError when
both the looked-up value and the default are falsy, and otherwise returns
value or-else (default or-else empty string). -/
def getString (env : String → Option String) (configKey : String)
    (defaultValue : Option String) : Except ConfigError String :=
  let value := getEnvVariable env configKey
  if !jsTruthy value && !jsTruthy defaultValue then
    Except.error ⟨configKey⟩
  else
    Except.ok (jsOrElse value (jsOrElse defaultValue ""))

/-- Model of the JS toLowerCase call, mapping the lowercasing function over
the characters of the string. -/
def jsToLower (s : String) : String :=
  String.mk (s.data.map Char.toLower)

/-- The boolMap of environment-config.ts getBool. -/
def boolMap : List (String × Bool) := [("true", true), ("false", false)]

/-- environment-config.ts getBool: a falsy value yields the default; a
truthy value is lowercased and looked up in boolMap, and a failed lookup
throws ConfigError. -/
def getBool (env : String → Option String) (configKey : String)
    (defaultValue : Bool) : Except ConfigError Bool :=
  let value := getEnvVariable env configKey
  if !jsTruthy value then
    Except.ok defaultValue
  else
    let lowerValue := jsToLower (value.getD "")
    match boolMap.lookup lowerValue with
    | some b => Except.ok b
    | none => Except.error ⟨configKey⟩

/-- The EnvironmentConfig class of environment-config.ts, as the record of
its four fields. -/
structure EnvironmentConfig where
  BasePath : String
  DesktopReportPath : String
  MobileReportPath : String
  RunParallel : Bool
deriving DecidableEq

/-- Construction of the EnvironmentConfig instance: the field initializers
run in declaration order and any ConfigError aborts construction. -/
def mkEnvironmentConfig (env : String → Option String) :
    Except ConfigError EnvironmentConfig := do
  let basePath ← getString env "BASE_URL" none
  let desktopReportPath ← getString env "DESKTOP_REPORT_PATH" (some "html-report/desktop")
  let mobileReportPath ← getString env "MOBILE_REPORT_PATH" (some "html-report/mobile")
  let runParallel ← getBool env "RUN_PARALLEL" false
  return ⟨basePath, desktopReportPath, mobileReportPath, runParallel⟩

/-- What the asynchronous fs.readFile reports to its callback: an error
object, or the decoded file data. -/
inductive ReadOutcome where
  | err : ReadOutcome
  | ok (data : String) : ReadOutcome
deriving DecidableEq

/-- Full execution record of one call of file-config.ts readObject:
the value returned to the synchronous caller, the ConfigError the callback
throws after the return (if the read erred), and the final value of the
content variable once the callback has run. -/
structure ReadObjectResult (α : Type) where
  returned : Except JsonSyntaxError (Option α)
  deferredError : Option ConfigError
  finalContent : String

/-- file-config.ts readObject.  The local variable content starts as the
empty string; fs.readFile only schedules its callback, so the synchronous
check of content runs against the initial empty string and the function
returns undefined (none); the callback, which would assign content or throw
ConfigError, runs after the return value is already fixed.  parseJSON is the
JSON.parse cast, a parameter because JSON.parse is external library code. -/
def readObject {α : Type} (parseJSON : String → Except JsonSyntaxError α)
    (path : String) (outcome : ReadOutcome) : ReadObjectResult α :=
  let content : String := ""
  let returned : Except JsonSyntaxError (Option α) :=
    if content == "" then Except.ok none
    else (parseJSON content).map some
  match outcome with
  | ReadOutcome.err => ⟨returned, some ⟨path⟩, content⟩
  | ReadOutcome.ok data => ⟨returned, none, data⟩

/-- The exported PlayWrightServerConfig of file-config.ts: the value
readObject hands to the synchronous importer of the module, for the
web-server.json path and whatever outcome the file system produces there. -/
def PlayWrightServerConfig {α : Type} (parseJSON : String → Except JsonSyntaxError α)
    (webServerConfigPath : String) (outcome : ReadOutcome) :
    Except JsonSyntaxError (Option α) :=
  (readObject parseJSON webServerConfigPath outcome).returned

/-- Engine variants of the DeviceDescriptor defaultBrowserType field. -/
inductive BrowserType where
  | chromium
  | firefox
  | webkit
deriving DecidableEq

/-- ViewportSize from the playwright type surface. -/
structure ViewportSize where
  width : Nat
  height : Nat
deriving DecidableEq

/-- DeviceDescriptor from lib/types (part_001 context): one emulation
profile.  deviceScaleFactor is a JS number; every value in the sources is
exactly representable, so Rat is used. -/
structure DeviceDescriptor where
  userAgent : String
  viewport : ViewportSize
  deviceScaleFactor : Rat
  isMobile : Bool
  hasTouch : Bool
  defaultBrowserType : BrowserType
deriving DecidableEq

/-- The Galaxy A52 descriptor of lib/types/devices/samsung-a52.ts
(part_001), field for field.  The scale factor is the source literal 2.75,
written as the canonical rational with numerator 11 and denominator 4 so it
evaluates in the kernel; the lemma galaxyA52_scale below records the
equality with 2.75. -/
def GalaxyA52 : DeviceDescriptor where
  userAgent := "Mozilla/5.0 (Linux; Android 11; SAMSUNG SM-A526B) AppleWebKit/537.36 (KHTML, like Gecko) Chrome/90.0.4430.91 Mobile Safari/537.36"
  viewport := ⟨412, 915⟩
  deviceScaleFactor := ⟨11, 4, by norm_num, by norm_num⟩
  isMobile := true
  hasTouch := true
  defaultBrowserType := BrowserType.chromium

/-- The user-authored device list of lib/types/devices/index.ts: one entry,
Galaxy A52. -/
def customList : List (String × DeviceDescriptor) := [("Galaxy A52", GalaxyA52)]

/-- customDevices of lib/types/devices/index.ts: the JS spread of the
built-in playwright devices object with the user list; a later key wins, so
a name is looked up in the user list first and falls back to the built-in
mapping.  The built-in playwright devices object is external library data
and therefore a parameter. -/
def customDevices (playwrightDevices : String → Option DeviceDescriptor) :
    String → Option DeviceDescriptor :=
  fun name =>
    match customList.lookup name with
    | some d => some d
    | none => playwrightDevices name

/-- DeviceNameChannel from lib/types: a device name and an optional browser
channel. -/
structure DeviceNameChannel where
  deviceName : String
  channel : Option String
deriving DecidableEq

/-- Settings object under the use key of a produced project.  An individual
project spreads a registry lookup and then sets the channel key, so it
carries the (possibly absent) descriptor and the (possibly absent) channel;
an aggregate project's use is the array of raw registry lookups. -/
inductive ProjectUse where
  | single (device : Option DeviceDescriptor) (channel : Option String) : ProjectUse
  | group (deviceList : List (Option DeviceDescriptor)) : ProjectUse
deriving DecidableEq

/-- A playwright Project as produced by playwright-project-config
(part_003): name, use settings and output directory. -/
structure Project where
  name : String
  use : ProjectUse
  outputDir : String
deriving DecidableEq

/-- createDeviceProject of part_003: name is the id, use spreads the
registry lookup of deviceId and sets channel, outputDir is passed through. -/
def createDeviceProject (devices : String → Option DeviceDescriptor)
    (id deviceId outputDir : String) (channel : Option String) : Project :=
  ⟨id, ProjectUse.single (devices deviceId) channel, outputDir⟩

/-- The desktopBrowsers list literal of part_003. -/
def desktopBrowsers : List DeviceNameChannel :=
  [⟨"Desktop Chrome", some "chrome"⟩,
   ⟨"Desktop Edge", some "msedge"⟩,
   ⟨"Desktop Firefox", none⟩,
   ⟨"Desktop Safari", none⟩]

/-- The mobileBrowsers list literal of part_003. -/
def mobileBrowsers : List String :=
  ["Galaxy S5", "Galaxy S5 landscape", "Galaxy A52", "iPhone 12"]

/-- Replacement of the first occurrence of pat in a character list, the
semantics of the JS String.prototype.replace with a string pattern. -/
def replaceFirstList (pat rep : List Char) : List Char → List Char
  | [] => if pat.isPrefixOf ([] : List Char) then rep else []
  | c :: cs =>
    if pat.isPrefixOf (c :: cs) then rep ++ (c :: cs).drop pat.length
    else c :: replaceFirstList pat rep cs

/-- JS s.replace(pat, rep) for a string pattern: only the first occurrence
is replaced. -/
def jsReplaceFirst (s pat rep : String) : String :=
  String.mk (replaceFirstList pat.data rep.data s.data)

/-- The desktopProjects map of part_003, parameterised by the registry, the
browser list and the output directory that the source takes from the device
registry, the desktopBrowsers literal and envConfig.DesktopReportPath. -/
def desktopProjectsOf (devices : String → Option DeviceDescriptor)
    (browsers : List DeviceNameChannel) (outputDir : String) : List Project :=
  browsers.map fun d =>
    createDeviceProject devices (jsReplaceFirst d.deviceName "Desktop " "")
      d.deviceName outputDir d.channel

/-- The mobileProjects map of part_003: the id is the device name itself and
no channel is passed. -/
def mobileProjectsOf (devices : String → Option DeviceDescriptor)
    (browsers : List String) (outputDir : String) : List Project :=
  browsers.map fun id => createDeviceProject devices id id outputDir none

/-- The projectConfig array literal of part_003: the Desktop aggregate, the
Mobile aggregate, then the spread desktop projects, then the spread mobile
projects. -/
def projectConfigOf (devices : String → Option DeviceDescriptor)
    (desktopList : List DeviceNameChannel) (mobileList : List String)
    (desktopOut mobileOut : String) : List Project :=
  ⟨"Desktop", ProjectUse.group (desktopList.map fun d => devices d.deviceName), desktopOut⟩ ::
  ⟨"Mobile", ProjectUse.group (mobileList.map fun id => devices id), mobileOut⟩ ::
  (desktopProjectsOf devices desktopList desktopOut ++
   mobileProjectsOf devices mobileList mobileOut)

/-- The exported projectConfig of part_003, instantiated with the
repository's hardcoded browser lists. -/
def projectConfig (devices : String → Option DeviceDescriptor)
    (desktopOut mobileOut : String) : List Project :=
  projectConfigOf devices desktopBrowsers mobileBrowsers desktopOut mobileOut

/-- JS runtime values relevant to the entry point: undefined, a boolean or a
string. -/
inductive JsValue where
  | undef : JsValue
  | bool (b : Bool) : JsValue
  | str (s : String) : JsValue
deriving DecidableEq

/-- Property table of an EnvironmentConfig instance: exactly the four fields
the class declares, keyed by their JS property names. -/
def environmentConfigProps (c : EnvironmentConfig) : List (String × JsValue) :=
  [("BasePath", JsValue.str c.BasePath),
   ("DesktopReportPath", JsValue.str c.DesktopReportPath),
   ("MobileReportPath", JsValue.str c.MobileReportPath),
   ("RunParallel", JsValue.bool c.RunParallel)]

/-- JS property access on an object modelled by a property table: a missing
key yields undefined. -/
def jsGet (props : List (String × JsValue)) (key : String) : JsValue :=
  (props.lookup key).getD JsValue.undef

/-- The fields of the object literal passed to defineConfig in part_000 that
this development models (testDir, fullyParallel, the baseURL inside use, and
projects). -/
structure DefineConfigArg where
  testDir : String
  fullyParallel : JsValue
  baseURL : String
  projects : List Project
deriving DecidableEq

/-- The defineConfig argument of part_000.  fullyParallel is the property
access config.EnvironmentConfig.RunParrel, a lookup of the literal name
RunParrel in the property table of the EnvironmentConfig instance. -/
def defineConfigArg (c : EnvironmentConfig) (projects : List Project) : DefineConfigArg :=
  ⟨"./tests-examples",
   jsGet (environmentConfigProps c) "RunParrel",
   c.BasePath,
   projects⟩

/-- Modelled from the spec: the name derivation the specification describes
for desktop projects, removal of a literal leading desktop marker when the
device name starts with it and the name unchanged otherwise.  Kept separate
from jsReplaceFirst so the two can be compared. -/
def specStripDesktop (n : String) : String :=
  if "Desktop ".data.isPrefixOf n.data then String.mk (n.data.drop "Desktop ".data.length)
  else n

/-- Modelled from the spec: settings of an individual project whose device
resolved, the registry descriptor merged with the optional channel
override. -/
def mergedSettings (desc : DeviceDescriptor) (channel : Option String) : ProjectUse :=
  ProjectUse.single (some desc) channel

/-- Modelled from the spec: settings of an individual project without a
channel, the registry descriptor unmodified. -/
def unmodifiedSettings (desc : DeviceDescriptor) : ProjectUse :=
  ProjectUse.single (some desc) none

/-- Sample descriptor used to instantiate universally quantified theorems. -/
def deviceD1 : DeviceDescriptor :=
  ⟨"ua-desktop-sample", ⟨1280, 720⟩, 1, false, false, BrowserType.chromium⟩

/-- Second sample descriptor. -/
def deviceD2 : DeviceDescriptor :=
  ⟨"ua-mobile-sample", ⟨390, 844⟩, 3, true, true, BrowserType.webkit⟩

/-- Sample registry for the end-to-end scenario: Desktop Chrome and
iPhone 12 only. -/
def scenarioRegistry : String → Option DeviceDescriptor :=
  fun n =>
    if n = "Desktop Chrome" then some deviceD1
    else if n = "iPhone 12" then some deviceD2
    else none

/-- Sample built-in device mapping that already contains the Galaxy A52 name
with a different descriptor. -/
def builtinSample : String → Option DeviceDescriptor :=
  fun n => if n = "Galaxy A52" then some deviceD1 else none

/-- Environment in which BASE_URL is present but holds the empty string. -/
def emptyValueEnv : String → Option String :=
  fun k => if k = "BASE_URL" then some "" else none

/-- Environment in which RUN_PARALLEL is present but holds the empty
string. -/
def emptyBoolEnv : String → Option String :=
  fun k => if k = "RUN_PARALLEL" then some "" else none

/-- Environment with a nonempty BASE_URL only. -/
def basicEnv : String → Option String :=
  fun k => if k = "BASE_URL" then some "http://localhost" else none

/-- Environment with an uppercase boolean RUN_PARALLEL value. -/
def upperBoolEnv : String → Option String :=
  fun k => if k = "RUN_PARALLEL" then some "TRUE" else none

/-- Environment for the entry-point scenario: BASE_URL set and RUN_PARALLEL
set to true. -/
def fullEnv : String → Option String :=
  fun k =>
    if k = "BASE_URL" then some "http://localhost"
    else if k = "RUN_PARALLEL" then some "true"
    else none

/-- The EnvironmentConfig that fullEnv produces. -/
def fullEnvConfig : EnvironmentConfig :=
  ⟨"http://localhost", "html-report/desktop", "html-report/mobile", true⟩

/-- Record that the Galaxy A52 scale factor is the source literal 2.75. -/
theorem galaxyA52_scale : GalaxyA52.deviceScaleFactor = (2.75 : Rat) := by
  rw [show GalaxyA52.deviceScaleFactor = (⟨11, 4, by norm_num, by norm_num⟩ : Rat) from rfl,
    Rat.mk'_eq_divInt]
  norm_num [Rat.divInt_eq_div]

/-- C1: for every file path and every file-system state, readObject returns
the Absent sentinel (undefined, here none) to its synchronous caller,
because the asynchronous read has not completed when the content check runs;
in particular the exported PlayWrightServerConfig is Absent regardless of
the contents of web-server.json. -/
theorem c1_readObject_always_absent {α : Type}
    (parseJSON : String → Except JsonSyntaxError α) (path : String)
    (outcome : ReadOutcome) :
    (readObject parseJSON path outcome).returned = Except.ok none
    ∧ ∀ webServerConfigPath : String,
        PlayWrightServerConfig parseJSON webServerConfigPath outcome = Except.ok none := by
  refine ⟨?_, fun p => ?_⟩ <;> cases outcome <;> rfl

/-- C2 (evaluation at the failing input): even when the read succeeds with
the nonempty valid JSON text of an array, readObject still hands the Absent
sentinel to its caller, and when the read errs the ConfigError carrying the
path is thrown only inside the deferred callback, after the caller has
already received Absent — the outcome is never resolved before readObject
returns. -/
theorem c2_read_resolution_not_awaited {α : Type}
    (parseJSON : String → Except JsonSyntaxError α) :
    (readObject parseJSON "web-server.json" (ReadOutcome.ok "[]")).returned = Except.ok none
    ∧ (readObject parseJSON "web-server.json" ReadOutcome.err).returned = Except.ok none
    ∧ (readObject parseJSON "web-server.json" ReadOutcome.err).deferredError =
        some ⟨"web-server.json"⟩ :=
  ⟨rfl, rfl, rfl⟩

/-- C3 (counterexample): with a registry that does not contain the name
Desktop Bogus, composition does not fail — it produces the full three
element sequence, whose third element is a project for the unknown device
with empty device settings. -/
theorem c3_unknown_device_no_failure :
    (projectConfigOf (fun _ => none) [⟨"Desktop Bogus", none⟩] [] "out-desktop" "out-mobile").length = 3
    ∧ (projectConfigOf (fun _ => none) [⟨"Desktop Bogus", none⟩] [] "out-desktop" "out-mobile")[2]? =
        some ⟨"Bogus", ProjectUse.single none none, "out-desktop"⟩ :=
  ⟨rfl, by decide⟩

/-- C3 (amended): for every desktop input entry whose device name is not a
key of the registry, composition emits a project for it whose device
settings are absent (the spread of the undefined lookup contributes no
fields), carrying only the channel — there is no failure. -/
theorem c3_unknown_device_project_emitted
    (devices : String → Option DeviceDescriptor) (dl : List DeviceNameChannel)
    (ml : List String) (o1 o2 : String) (d : DeviceNameChannel)
    (hmem : d ∈ dl) (hnone : devices d.deviceName = none) :
    (⟨jsReplaceFirst d.deviceName "Desktop " "", ProjectUse.single none d.channel, o1⟩ : Project)
      ∈ projectConfigOf devices dl ml o1 o2 := by
  have h1 : createDeviceProject devices (jsReplaceFirst d.deviceName "Desktop " "")
      d.deviceName o1 d.channel
      = ⟨jsReplaceFirst d.deviceName "Desktop " "", ProjectUse.single none d.channel, o1⟩ := by
    simp [createDeviceProject, hnone]
  have h2 : (⟨jsReplaceFirst d.deviceName "Desktop " "", ProjectUse.single none d.channel, o1⟩ : Project)
      ∈ desktopProjectsOf devices dl o1 := by
    rw [← h1]
    exact List.mem_map_of_mem _ hmem
  exact List.mem_cons_of_mem _ (List.mem_cons_of_mem _ (List.mem_append_left _ h2))

/-- Witness for the amended C3 at a concrete registry and list. -/
theorem c3_unknown_device_witness :
    (⟨"Ghost", ProjectUse.single none (some "chrome"), "od"⟩ : Project)
      ∈ projectConfigOf (fun _ => none) [⟨"Ghost", some "chrome"⟩] [] "od" "om" := by
  have h := c3_unknown_device_project_emitted (fun _ => none)
    [⟨"Ghost", some "chrome"⟩] [] "od" "om" ⟨"Ghost", some "chrome"⟩ (by simp) rfl
  have e : jsReplaceFirst "Ghost" "Desktop " "" = "Ghost" := by decide
  rw [e] at h
  exact h

/-- C4 (evaluation at the failing input): composing with an empty desktop
list and a mobile list that names iPhone 12 twice silently emits two
projects sharing the name iPhone 12 — the produced name sequence is explicit
and contains the duplicate, and no failure of any kind occurs. -/
theorem c4_duplicate_names_emitted (devices : String → Option DeviceDescriptor) :
    (projectConfigOf devices [] ["iPhone 12", "iPhone 12"] "od" "om").map Project.name
      = ["Desktop", "Mobile", "iPhone 12", "iPhone 12"] := rfl

/-- C6: over the repository's hardcoded browser lists, each individual
desktop project is named by the device name with the literal leading
Desktop marker removed when the name starts with it (unchanged otherwise,
per specStripDesktop), and each individual mobile project is named exactly
by its device name. -/
theorem c6_name_derivation (devices : String → Option DeviceDescriptor) (o1 o2 : String) :
    (desktopProjectsOf devices desktopBrowsers o1).map Project.name
      = desktopBrowsers.map (fun d => specStripDesktop d.deviceName)
    ∧ (mobileProjectsOf devices mobileBrowsers o2).map Project.name = mobileBrowsers := by
  constructor <;> rfl

/-- C9: for every built-in playwright device mapping, a name in the
user-authored list resolves to the user-authored descriptor (last-writer
wins, in particular on collision), a name not in the user list resolves to
the built-in mapping's value, and Galaxy A52 resolves to the user-authored
GalaxyA52 descriptor. -/
theorem c9_registry_overlay (playwrightDevices : String → Option DeviceDescriptor) :
    (∀ n u, customList.lookup n = some u → customDevices playwrightDevices n = some u)
    ∧ (∀ n, customList.lookup n = none → customDevices playwrightDevices n = playwrightDevices n)
    ∧ customDevices playwrightDevices "Galaxy A52" = some GalaxyA52 := by
  refine ⟨fun n u h => ?_, fun n h => ?_, rfl⟩
  · simp [customDevices, h]
  · simp [customDevices, h]

/-- Witness for C9: against a built-in mapping that itself binds
Galaxy A52, the overlay still resolves Galaxy A52 to the user descriptor,
and an uncustomised name falls through to the built-in mapping. -/
theorem c9_registry_overlay_witness :
    customDevices builtinSample "Galaxy A52" = some GalaxyA52
    ∧ customDevices builtinSample "Galaxy S5" = builtinSample "Galaxy S5" :=
  ⟨(c9_registry_overlay builtinSample).2.2,
   (c9_registry_overlay builtinSample).2.1 "Galaxy S5" (by decide)⟩

/-- C10: for every environment whose EnvironmentConfig construction
succeeds, the fullyParallel value the entry point passes to the external
runner is the JS undefined value — the property name RunParrel does not
exist on the instance — and in particular it never equals the boolean
RunParallel computed from RUN_PARALLEL. -/
theorem c10_fullyParallel_undefined (env : String → Option String)
    (cfg : EnvironmentConfig) (ps : List Project)
    (_hcfg : mkEnvironmentConfig env = Except.ok cfg) :
    (defineConfigArg cfg ps).fullyParallel = JsValue.undef
    ∧ (defineConfigArg cfg ps).fullyParallel ≠ JsValue.bool cfg.RunParallel := by
  refine ⟨rfl, ?_⟩
  intro h
  exact JsValue.noConfusion (show JsValue.undef = JsValue.bool cfg.RunParallel from h)

/-- Witness for C10 at an environment with BASE_URL bound and RUN_PARALLEL
set to true. -/
theorem c10_fullyParallel_undefined_witness :
    (defineConfigArg fullEnvConfig []).fullyParallel = JsValue.undef
    ∧ (defineConfigArg fullEnvConfig []).fullyParallel ≠ JsValue.bool fullEnvConfig.RunParallel :=
  c10_fullyParallel_undefined fullEnv fullEnvConfig [] (by decide)

/-- C7 (counterexample): BASE_URL present in the environment with the empty
string as value and no default supplied — the key is present, yet getString
does not return the exact value; it fails with the missing-configuration
error, because the source tests JS truthiness rather than presence. -/
theorem c7_getString_empty_value_counterexample :
    emptyValueEnv "BASE_URL" = some ""
    ∧ getString emptyValueEnv "BASE_URL" none ≠ Except.ok ""
    ∧ getString emptyValueEnv "BASE_URL" none = Except.error ⟨"BASE_URL"⟩ := by
  decide

/-- C8 (counterexample): RUN_PARALLEL present with the empty string as
value — the value is neither true nor false, yet getBool does not fail; it
returns the default, because the source treats every falsy value like an
absent key. -/
theorem c8_getBool_empty_value_counterexample :
    emptyBoolEnv "RUN_PARALLEL" = some ""
    ∧ getBool emptyBoolEnv "RUN_PARALLEL" false = Except.ok false
    ∧ getBool emptyBoolEnv "RUN_PARALLEL" false ≠ Except.error ⟨"RUN_PARALLEL"⟩ := by
  decide

/-- C5: for every registry and every pair of input lists, the composed
sequence is the aggregate Desktop project, the aggregate Mobile project, the
individual desktop projects in input order, then the individual mobile
projects in input order; an individual desktop project whose device resolves
carries the registry descriptor merged with its channel override, and an
individual mobile project (which never receives a channel) carries the
registry descriptor unmodified. -/
theorem c5_compose_order_and_settings (devices : String → Option DeviceDescriptor)
    (dl : List DeviceNameChannel) (ml : List String) (o1 o2 : String) :
    (projectConfigOf devices dl ml o1 o2).length = 2 + dl.length + ml.length
    ∧ (projectConfigOf devices dl ml o1 o2)[0]? =
        some ⟨"Desktop", ProjectUse.group (dl.map fun d => devices d.deviceName), o1⟩
    ∧ (projectConfigOf devices dl ml o1 o2)[1]? =
        some ⟨"Mobile", ProjectUse.group (ml.map fun id => devices id), o2⟩
    ∧ (∀ i d desc, dl[i]? = some d → devices d.deviceName = some desc →
        (projectConfigOf devices dl ml o1 o2)[2 + i]? =
          some ⟨jsReplaceFirst d.deviceName "Desktop " "", mergedSettings desc d.channel, o1⟩)
    ∧ (∀ j id desc, ml[j]? = some id → devices id = some desc →
        (projectConfigOf devices dl ml o1 o2)[2 + dl.length + j]? =
          some ⟨id, unmodifiedSettings desc, o2⟩) := by
  have hdlen : (desktopProjectsOf devices dl o1).length = dl.length := by
    simp [desktopProjectsOf]
  refine ⟨?_, by simp [projectConfigOf], by simp [projectConfigOf], ?_, ?_⟩
  · simp [projectConfigOf, desktopProjectsOf, mobileProjectsOf]
    omega
  · intro i d desc hd hdesc
    have hi : i < dl.length := (List.getElem?_eq_some.mp hd).1
    have hidx : 2 + i = (i + 1) + 1 := by omega
    rw [hidx]
    simp only [projectConfigOf, List.getElem?_cons_succ]
    rw [List.getElem?_append, if_pos (by rw [hdlen]; exact hi)]
    simp only [desktopProjectsOf, List.getElem?_map, hd, Option.map_some']
    simp [createDeviceProject, mergedSettings, hdesc]
  · intro j id desc hm hdesc
    have hidx : 2 + dl.length + j = ((dl.length + j) + 1) + 1 := by omega
    rw [hidx]
    simp only [projectConfigOf, List.getElem?_cons_succ]
    rw [List.getElem?_append, if_neg (by rw [hdlen]; omega)]
    have hsub : dl.length + j - (desktopProjectsOf devices dl o1).length = j := by
      rw [hdlen]; omega
    rw [hsub]
    simp only [mobileProjectsOf, List.getElem?_map, hm, Option.map_some']
    simp [createDeviceProject, unmodifiedSettings, hdesc]

/-- Witness for C5 at the end-to-end scenario: registry binding Desktop
Chrome and iPhone 12, one desktop target with channel chrome, one mobile
target; the output has four projects and the two individual ones carry the
expected names and settings. -/
theorem c5_compose_order_and_settings_witness :
    (projectConfigOf scenarioRegistry [⟨"Desktop Chrome", some "chrome"⟩] ["iPhone 12"] "od" "om").length = 4
    ∧ (projectConfigOf scenarioRegistry [⟨"Desktop Chrome", some "chrome"⟩] ["iPhone 12"] "od" "om")[2]? =
        some ⟨"Chrome", mergedSettings deviceD1 (some "chrome"), "od"⟩
    ∧ (projectConfigOf scenarioRegistry [⟨"Desktop Chrome", some "chrome"⟩] ["iPhone 12"] "od" "om")[3]? =
        some ⟨"iPhone 12", unmodifiedSettings deviceD2, "om"⟩ := by
  have h := c5_compose_order_and_settings scenarioRegistry
    [⟨"Desktop Chrome", some "chrome"⟩] ["iPhone 12"] "od" "om"
  refine ⟨by simpa using h.1, ?_, ?_⟩
  · have h2 := h.2.2.2.1 0 ⟨"Desktop Chrome", some "chrome"⟩ deviceD1 rfl (by decide)
    have e : jsReplaceFirst "Desktop Chrome" "Desktop " "" = "Chrome" := by decide
    rw [e] at h2
    simpa using h2
  · have h3 := h.2.2.2.2 0 "iPhone 12" deviceD2 rfl (by decide)
    simpa using h3

/-- C7 (amended): getString fails with the missing-configuration error
exactly when the environment value is absent or empty and the default is
absent or empty; a key present with a non-empty value yields that exact
value; and when the value is absent or empty but a non-empty default was
supplied, the default is returned. -/
theorem c7_getString_characterisation (env : String → Option String) (k : String)
    (dflt : Option String) :
    (getString env k dflt = Except.error ⟨k⟩ ↔
      jsTruthy (env k) = false ∧ jsTruthy dflt = false)
    ∧ (∀ v, env k = some v → v ≠ "" → getString env k dflt = Except.ok v)
    ∧ (∀ d, jsTruthy (env k) = false → dflt = some d → d ≠ "" →
        getString env k dflt = Except.ok d) := by
  refine ⟨?_, ?_, ?_⟩
  · unfold getString getEnvVariable
    by_cases h1 : jsTruthy (env k) <;> by_cases h2 : jsTruthy dflt <;>
      simp [h1, h2]
  · intro v hv hne
    have ht : jsTruthy (env k) = true := by simp [jsTruthy, hv, hne]
    unfold getString getEnvVariable
    rw [hv] at ht ⊢
    simp [ht, jsOrElse, hne]
  · intro d hfalse hd hne
    subst hd
    unfold getString getEnvVariable
    rcases henv : env k with _ | v
    · simp [jsTruthy, jsOrElse, hne]
    · have hv : v = "" := by
        rw [henv] at hfalse
        simpa [jsTruthy] using hfalse
      subst hv
      simp [jsTruthy, jsOrElse, hne]

/-- Witness for the amended C7: a present non-empty BASE_URL is returned
exactly. -/
theorem c7_getString_witness :
    getString basicEnv "BASE_URL" none = Except.ok "http://localhost" :=
  (c7_getString_characterisation basicEnv "BASE_URL" none).2.1 "http://localhost" rfl
    (by decide)

/-- C8 (amended): getBool returns the default when the key is absent or its
value is empty; when the value is non-empty it returns true or false for a
value whose lowercasing is true or false, and fails with the
missing-configuration error for every other non-empty value. -/
theorem c8_getBool_characterisation (env : String → Option String) (k : String)
    (d : Bool) :
    (jsTruthy (env k) = false → getBool env k d = Except.ok d)
    ∧ (∀ v, env k = some v → jsToLower v = "true" → getBool env k d = Except.ok true)
    ∧ (∀ v, env k = some v → jsToLower v = "false" → getBool env k d = Except.ok false)
    ∧ (∀ v, env k = some v → v ≠ "" → jsToLower v ≠ "true" → jsToLower v ≠ "false" →
        getBool env k d = Except.error ⟨k⟩) := by
  have hmatch : ∀ v, env k = some v → v ≠ "" →
      getBool env k d = (match boolMap.lookup (jsToLower v) with
        | some b => Except.ok b
        | none => Except.error ⟨k⟩) := by
    intro v henv hne
    unfold getBool getEnvVariable
    rw [henv]
    simp [jsTruthy, hne]
  refine ⟨?_, ?_, ?_, ?_⟩
  · intro hfalse
    unfold getBool getEnvVariable
    simp [hfalse]
  · intro v henv hlow
    have hne : v ≠ "" := by
      intro h; subst h; exact absurd hlow (by decide)
    rw [hmatch v henv hne, hlow]
    rfl
  · intro v henv hlow
    have hne : v ≠ "" := by
      intro h; subst h; exact absurd hlow (by decide)
    rw [hmatch v henv hne, hlow]
    rfl
  · intro v henv hne h3 h4
    have e1 : (jsToLower v == "true") = false := beq_eq_false_iff_ne.mpr h3
    have e2 : (jsToLower v == "false") = false := beq_eq_false_iff_ne.mpr h4
    have hl : boolMap.lookup (jsToLower v) = none := by
      simp [boolMap, List.lookup, e1, e2]
    rw [hmatch v henv hne, hl]

/-- Witness for the amended C8: the uppercase value TRUE parses to true. -/
theorem c8_getBool_witness :
    getBool upperBoolEnv "RUN_PARALLEL" false = Except.ok true :=
  (c8_getBool_characterisation upperBoolEnv "RUN_PARALLEL" false).2.1 "TRUE" rfl
    (by decide)

end PlaywrightTs
